import Mathlib

/-!
# Verification of the PulseNode MD ASCVD risk calculator

Shallow embedding of `src/main.py` (FastAPI service exposing the 2013
Pooled Cohort Equations ten-year ASCVD risk calculator), together with
proofs settling the specification claims about it.

Python floating-point arithmetic is idealised as real arithmetic; Python
`math.log`, which raises `ValueError` on a non-positive argument, is
embedded as a function into `Except`; Python `round(x, 2)` (round half to
even) is embedded as `pyRound2`; `HTTPException(status_code, detail)` is
embedded as the `ApiFailure.http` constructor.  The f-string formatting of
the numeric risk into the `ten_year_risk` response field is not modelled:
the response record keeps the numeric value itself.
-/

open Real Filter Topology

namespace PulseNode

/-- Failure outcomes observable from the API layer.  `valueError` is an
uncaught Python `ValueError` (as raised by `math.log` on a non-positive
argument); `http code detail` is a raised `HTTPException`.  The
`preconditionViolation` constructor embeds the failure kind named by the
specification's error taxonomy; it is needed to state claims about that
taxonomy (the source itself never produces it). -/
inductive ApiFailure where
  | valueError : ApiFailure
  | http : ℕ → String → ApiFailure
  | preconditionViolation : ApiFailure
  deriving DecidableEq

/-- Embeds Python `math.log`: the natural logarithm, raising `ValueError`
on a non-positive argument. -/
noncomputable def mathLog (x : ℝ) : Except ApiFailure ℝ :=
  if 0 < x then Except.ok (Real.log x) else Except.error ApiFailure.valueError

/-- Python's implicit bool-to-number coercion (`True` is `1`, `False` is `0`),
used by the source in products such as `0.661 * is_smoker`. -/
def pyBool (b : Bool) : ℝ := if b then 1 else 0

/-- Embeds Python `round` to the nearest integer: exact halves round to the
nearest even integer, every other value to the nearest integer. -/
noncomputable def pyRound (x : ℝ) : ℤ :=
  if Int.fract x = 1 / 2 then (if Even ⌊x⌋ then ⌊x⌋ else ⌊x⌋ + 1) else round x

/-- Embeds Python `round(x, 2)`: rounding to two decimal places. -/
noncomputable def pyRound2 (x : ℝ) : ℝ := (pyRound (x * 100) : ℝ) / 100

/-- The baseline ten-year survival `s10` bound in each of the four
demographic branches of `calculate_pce_risk` (src/main.py lines 39-61). -/
noncomputable def pce_s10 (is_male is_black : Bool) : ℝ :=
  if ¬is_male ∧ ¬is_black then 0.9665      -- White Female
  else if ¬is_male ∧ is_black then 0.9533  -- Black Female
  else if is_male ∧ ¬is_black then 0.9144  -- White Male
  else 0.8954                              -- Black Male

/-- The cohort mean linear predictor `mean_xb` bound in each of the four
demographic branches of `calculate_pce_risk` (src/main.py lines 39-61). -/
noncomputable def pce_mean_xb (is_male is_black : Bool) : ℝ :=
  if ¬is_male ∧ ¬is_black then -29.18      -- White Female
  else if ¬is_male ∧ is_black then 86.61   -- Black Female
  else if is_male ∧ ¬is_black then 61.18   -- White Male
  else 19.54                               -- Black Male

/-- The linear predictor `xb` bound in each of the four demographic branches
of `calculate_pce_risk` (src/main.py lines 39-61), as a function of the four
logarithms computed at lines 33-36 and the three boolean factors. -/
noncomputable def pce_xb (is_male is_black : Bool) (ln_age ln_total_chol ln_hdl ln_sbp : ℝ)
    (on_htn_meds is_smoker is_diabetic : Bool) : ℝ :=
  if ¬is_male ∧ ¬is_black then  -- White Female
    (-29.799) * ln_age + 4.884 * ln_age ^ 2 + 13.54 * ln_total_chol
      + (-3.114) * ln_age * ln_total_chol + (-13.578) * ln_hdl
      + 3.149 * ln_age * ln_hdl + (if on_htn_meds then (2.019 : ℝ) else 1.957) * ln_sbp
      + 0.661 * pyBool is_smoker + 0.657 * pyBool is_diabetic
  else if ¬is_male ∧ is_black then  -- Black Female
    17.114 * ln_age + 0.94 * ln_total_chol + (-18.92) * ln_hdl
      + 4.475 * ln_age * ln_hdl + (if on_htn_meds then (29.29 : ℝ) else 27.82) * ln_sbp
      + (-6.432) * ln_age * ln_sbp + 0.691 * pyBool is_smoker + 0.874 * pyBool is_diabetic
  else if is_male ∧ ¬is_black then  -- White Male
    12.344 * ln_age + 11.853 * ln_total_chol + (-2.664) * ln_age * ln_total_chol
      + (-7.99) * ln_hdl + 1.769 * ln_age * ln_hdl
      + (if on_htn_meds then (1.996 : ℝ) else 1.933) * ln_sbp
      + 7.837 * pyBool is_smoker + (-1.795) * ln_age * pyBool is_smoker
      + 0.658 * pyBool is_diabetic
  else  -- Black Male
    2.469 * ln_age + 0.302 * ln_total_chol + (-0.307) * ln_hdl
      + (if on_htn_meds then (1.916 : ℝ) else 1.809) * ln_sbp
      + 0.549 * pyBool is_smoker + 0.645 * pyBool is_diabetic

/-- The survival-function inversion of src/main.py line 63:
`risk = 1 - (s10 ** math.exp(xb - mean_xb))`, as a function of the four
precomputed logarithms. -/
noncomputable def pce_risk (is_male is_black : Bool) (ln_age ln_total_chol ln_hdl ln_sbp : ℝ)
    (on_htn_meds is_smoker is_diabetic : Bool) : ℝ :=
  1 - pce_s10 is_male is_black ^
      Real.exp (pce_xb is_male is_black ln_age ln_total_chol ln_hdl ln_sbp
          on_htn_meds is_smoker is_diabetic
        - pce_mean_xb is_male is_black)

/-- The unrounded risk probability of src/main.py lines 33-63 as a direct
function of the raw inputs (the logarithms applied inline, with no domain
check): the value in `[0,1)` before the `round(risk * 100, 2)` of line 64. -/
noncomputable def pce_risk_raw (age : ℝ) (is_male is_black : Bool) (total_chol hdl sbp : ℝ)
    (on_htn_meds is_smoker is_diabetic : Bool) : ℝ :=
  pce_risk is_male is_black (Real.log age) (Real.log total_chol) (Real.log hdl) (Real.log sbp)
    on_htn_meds is_smoker is_diabetic

/-- Embeds `calculate_pce_risk` (src/main.py lines 29-64): take the four
logarithms (each raising `ValueError` on a non-positive argument, in source
order), select the demographic branch, evaluate the linear predictor and
the survival transform, and return `round(risk * 100, 2)`. -/
noncomputable def calculate_pce_risk (age : ℝ) (is_male is_black : Bool)
    (total_chol hdl sbp : ℝ) (on_htn_meds is_smoker is_diabetic : Bool) :
    Except ApiFailure ℝ :=
  mathLog age >>= fun ln_age =>
  mathLog total_chol >>= fun ln_total_chol =>
  mathLog hdl >>= fun ln_hdl =>
  mathLog sbp >>= fun ln_sbp =>
  Except.ok (pyRound2 (pce_risk is_male is_black ln_age ln_total_chol ln_hdl ln_sbp
    on_htn_meds is_smoker is_diabetic * 100))

/-- The risk-band ladder of src/main.py lines 101-108: default category
"Low", overridden highest-first with inclusive lower bounds. -/
noncomputable def classify (risk_percent : ℝ) : String :=
  if 20 ≤ risk_percent then "High (≥20%)"
  else if 7.5 ≤ risk_percent then "Intermediate (7.5-19.9%)"
  else if 5 ≤ risk_percent then "Borderline (5-7.4%)"
  else "Low (<5%)"

/-- The fixed disclaimer string of src/main.py line 115. -/
def disclaimerText : String :=
  "Clinical Decision Support Only. Not a substitute for professional medical judgment."

/-- The `HTTPException` detail of src/main.py line 92. -/
def notImplementedDetail : String := "PREVENT 2023 model not yet implemented"

/-- The `HTTPException` detail of src/main.py line 98. -/
def invalidModelDetail : String :=
  "Invalid model_version. Use \x27pce2013\x27 or \x27prevent2023\x27."

/-- The response body assembled at src/main.py lines 111-116.  The
`risk_percent` field holds the numeric value that the source interpolates
into the `ten_year_risk` f-string; the string formatting itself is not
modelled. -/
structure RiskResponse where
  risk_percent : ℝ
  risk_category : String
  model_version : String
  disclaimer : String

/-- Embeds the `/v1/calculate/ascvd` handler `get_ascvd_risk`
(src/main.py lines 68-116): dispatch on `model_version`, then categorise
and assemble the response.  A `ValueError` escaping `calculate_pce_risk`
propagates (`Except` bind). -/
noncomputable def get_ascvd_risk (age : ℤ) (is_male is_black : Bool)
    (total_chol hdl sbp : ℝ) (model_version : String)
    (on_htn_meds is_smoker is_diabetic : Bool) :
    Except ApiFailure RiskResponse :=
  if model_version = "pce2013" then
    calculate_pce_risk (age : ℝ) is_male is_black total_chol hdl sbp
        on_htn_meds is_smoker is_diabetic >>= fun risk_percent =>
      Except.ok { risk_percent := risk_percent
                  risk_category := classify risk_percent
                  model_version := model_version
                  disclaimer := disclaimerText }
  else if model_version = "prevent2023" then
    Except.error (ApiFailure.http 501 notImplementedDetail)
  else
    Except.error (ApiFailure.http 400 invalidModelDetail)

/-! ## Shared helper lemmas -/

/-- Characterisation of `calculate_pce_risk`: on all-positive inputs it returns the
rounded percentage of the raw risk, otherwise the logarithm raises. -/
lemma calculate_pce_risk_eq (age : ℝ) (is_male is_black : Bool) (total_chol hdl sbp : ℝ)
    (on_htn_meds is_smoker is_diabetic : Bool) :
    calculate_pce_risk age is_male is_black total_chol hdl sbp on_htn_meds is_smoker is_diabetic =
      if 0 < age ∧ 0 < total_chol ∧ 0 < hdl ∧ 0 < sbp then
        Except.ok (pyRound2 (pce_risk_raw age is_male is_black total_chol hdl sbp
          on_htn_meds is_smoker is_diabetic * 100))
      else Except.error ApiFailure.valueError := by
  unfold calculate_pce_risk mathLog pce_risk_raw
  by_cases h1 : 0 < age <;> by_cases h2 : 0 < total_chol <;>
    by_cases h3 : 0 < hdl <;> by_cases h4 : 0 < sbp <;>
    simp [h1, h2, h3, h4, Bind.bind, Except.bind]

/-- The baseline survival constant is strictly between 0 and 1 in every
demographic branch. -/
lemma pce_s10_mem (is_male is_black : Bool) :
    0 < pce_s10 is_male is_black ∧ pce_s10 is_male is_black < 1 := by
  cases is_male <;> cases is_black <;> simp [pce_s10] <;> norm_num

/-- Rounding error bound: `pyRound` is within one half of its argument. -/
lemma pyRound_abs_le (x : ℝ) : |(pyRound x : ℝ) - x| ≤ 1 / 2 := by
  unfold pyRound
  by_cases h : Int.fract x = 1 / 2
  · have hx : x = (⌊x⌋ : ℝ) + 1 / 2 := by
      have := Int.fract_add_floor x
      rw [h] at this; linarith
    rw [if_pos h]
    by_cases he : Even ⌊x⌋
    · rw [if_pos he, abs_le]; constructor <;> linarith
    · rw [if_neg he, abs_le]; push_cast; constructor <;> linarith
  · rw [if_neg h, abs_sub_comm]
    exact abs_sub_round x

/-- Rounding error bound: `pyRound2` is within `1/200` of its argument. -/
lemma pyRound2_abs_le (x : ℝ) : |pyRound2 x - x| ≤ 1 / 200 := by
  unfold pyRound2
  have h := pyRound_abs_le (x * 100)
  rw [abs_le] at h ⊢
  constructor <;> linarith [h.1, h.2]

lemma classify_of_high {r : ℝ} (h : 20 ≤ r) : classify r = "High (≥20%)" := by
  unfold classify; rw [if_pos h]

lemma classify_of_intermediate {r : ℝ} (h1 : 7.5 ≤ r) (h2 : r < 20) :
    classify r = "Intermediate (7.5-19.9%)" := by
  unfold classify; rw [if_neg (by linarith), if_pos h1]

lemma classify_of_borderline {r : ℝ} (h1 : 5 ≤ r) (h2 : r < 7.5) :
    classify r = "Borderline (5-7.4%)" := by
  unfold classify; rw [if_neg (by linarith), if_neg (by linarith), if_pos h1]

lemma classify_of_low {r : ℝ} (h : r < 5) : classify r = "Low (<5%)" := by
  unfold classify
  rw [if_neg (by linarith), if_neg (by linarith), if_neg (by linarith)]

/-- Exactly one of the four threshold cases applies to any argument. -/
lemma classify_cases (r : ℝ) :
    (20 ≤ r ∧ classify r = "High (≥20%)") ∨
    (7.5 ≤ r ∧ r < 20 ∧ classify r = "Intermediate (7.5-19.9%)") ∨
    (5 ≤ r ∧ r < 7.5 ∧ classify r = "Borderline (5-7.4%)") ∨
    (r < 5 ∧ classify r = "Low (<5%)") := by
  by_cases h1 : 20 ≤ r
  · exact Or.inl ⟨h1, classify_of_high h1⟩
  · by_cases h2 : 7.5 ≤ r
    · exact Or.inr (Or.inl ⟨h2, by linarith, classify_of_intermediate h2 (by linarith)⟩)
    · by_cases h3 : 5 ≤ r
      · exact Or.inr (Or.inr (Or.inl ⟨h3, by linarith, classify_of_borderline h3 (by linarith)⟩))
      · exact Or.inr (Or.inr (Or.inr ⟨by linarith, classify_of_low (by linarith)⟩))

/-! ## Claims -/

/-- C4: `classify` is exhaustive and assigns exactly one category to every
`riskPercent ≥ 0`, with inclusive lower bounds: `≥ 20` maps to High,
`[7.5, 20)` to Intermediate, `[5, 7.5)` to Borderline, `< 5` to Low; the
boundary values `5`, `7.5`, `20` map to Borderline, Intermediate, High
respectively, and `4.99`, `7.49`, `19.99` map to the band just below. -/
theorem claim_C4 :
    (∀ r : ℝ, 0 ≤ r →
      (classify r = "High (≥20%)" ↔ 20 ≤ r) ∧
      (classify r = "Intermediate (7.5-19.9%)" ↔ 7.5 ≤ r ∧ r < 20) ∧
      (classify r = "Borderline (5-7.4%)" ↔ 5 ≤ r ∧ r < 7.5) ∧
      (classify r = "Low (<5%)" ↔ r < 5)) ∧
    classify 5 = "Borderline (5-7.4%)" ∧ classify 7.5 = "Intermediate (7.5-19.9%)" ∧
    classify 20 = "High (≥20%)" ∧ classify 4.99 = "Low (<5%)" ∧
    classify 7.49 = "Borderline (5-7.4%)" ∧ classify 19.99 = "Intermediate (7.5-19.9%)" := by
  refine ⟨fun r _ => ?_,
    classify_of_borderline (by norm_num) (by norm_num),
    classify_of_intermediate (by norm_num) (by norm_num),
    classify_of_high (by norm_num),
    classify_of_low (by norm_num),
    classify_of_borderline (by norm_num) (by norm_num),
    classify_of_intermediate (by norm_num) (by norm_num)⟩
  rcases classify_cases r with ⟨h, hc⟩ | ⟨h, h', hc⟩ | ⟨h, h', hc⟩ | ⟨h, hc⟩ <;>
    rw [hc] <;>
    refine ⟨⟨fun he => ?_, fun hr => ?_⟩, ⟨fun he => ?_, fun hr => ?_⟩,
            ⟨fun he => ?_, fun hr => ?_⟩, ⟨fun he => ?_, fun hr => ?_⟩⟩ <;>
    first
      | assumption
      | exact ⟨by linarith, by linarith⟩
      | rfl
      | (exact absurd he (by decide))
      | (exfalso; rcases hr with ⟨hr1, hr2⟩ <;> linarith)
      | (exfalso; linarith)

/-- C4 witness: instantiation of the quantified part at `r = 13`. -/
theorem claim_C4_witness : classify (13 : ℝ) = "Intermediate (7.5-19.9%)" :=
  ((claim_C4.1 13 (by norm_num)).2.1).mpr (by norm_num)

/-- C7: coefficient selection is a pure total lookup over exactly four
mutually exclusive, jointly exhaustive variants keyed by (sex, race), each
carrying its own fixed baseline survival in `(0,1)` and mean linear
predictor, with no fallback: for every (sex, race) pair exactly one
variant's constants are used, and distinct pairs use distinct constants. -/
theorem claim_C7 :
    (pce_s10 false false = 0.9665 ∧ pce_mean_xb false false = -29.18) ∧
    (pce_s10 false true = 0.9533 ∧ pce_mean_xb false true = 86.61) ∧
    (pce_s10 true false = 0.9144 ∧ pce_mean_xb true false = 61.18) ∧
    (pce_s10 true true = 0.8954 ∧ pce_mean_xb true true = 19.54) ∧
    (∀ is_male is_black : Bool,
      0 < pce_s10 is_male is_black ∧ pce_s10 is_male is_black < 1) ∧
    Function.Injective
      (fun p : Bool × Bool => (pce_s10 p.1 p.2, pce_mean_xb p.1 p.2)) := by
  refine ⟨⟨by simp [pce_s10], by simp [pce_mean_xb]⟩,
          ⟨by simp [pce_s10], by simp [pce_mean_xb]⟩,
          ⟨by simp [pce_s10], by simp [pce_mean_xb]⟩,
          ⟨by simp [pce_s10], by simp [pce_mean_xb]⟩,
          pce_s10_mem, ?_⟩
  rintro ⟨a, b⟩ ⟨c, d⟩ h
  cases a <;> cases b <;> cases c <;> cases d <;>
    simp [pce_s10, pce_mean_xb, Prod.ext_iff] at h ⊢ <;> norm_num at h

/-- C7 witness: the white-male pair selects the white-male constants, which
lie in the required range. -/
theorem claim_C7_witness :
    pce_s10 true false = 0.9144 ∧ 0 < pce_s10 true false ∧ pce_s10 true false < 1 :=
  ⟨claim_C7.2.2.1.1, (claim_C7.2.2.2.2.1 true false).1, (claim_C7.2.2.2.2.1 true false).2⟩

/-- C3: `get_ascvd_risk` dispatches on the model selector: for every input,
model "prevent2023" always fails with the 501 NotImplemented failure, and
every selector other than "pce2013" and "prevent2023" always fails with the
400 InvalidInput failure whose detail names the two valid selector values;
the two failure values are distinct. -/
theorem claim_C3 (age : ℤ) (is_male is_black : Bool) (total_chol hdl sbp : ℝ)
    (on_htn_meds is_smoker is_diabetic : Bool) (mv : String)
    (h1 : mv ≠ "pce2013") (h2 : mv ≠ "prevent2023") :
    get_ascvd_risk age is_male is_black total_chol hdl sbp "prevent2023"
        on_htn_meds is_smoker is_diabetic
      = Except.error (ApiFailure.http 501 notImplementedDetail) ∧
    get_ascvd_risk age is_male is_black total_chol hdl sbp mv
        on_htn_meds is_smoker is_diabetic
      = Except.error (ApiFailure.http 400 invalidModelDetail) ∧
    "pce2013".toList <:+: invalidModelDetail.toList ∧
    "prevent2023".toList <:+: invalidModelDetail.toList ∧
    ApiFailure.http 501 notImplementedDetail ≠ ApiFailure.http 400 invalidModelDetail := by
  refine ⟨?_, ?_, by decide, by decide, by decide⟩
  · unfold get_ascvd_risk
    rw [if_neg (by decide), if_pos rfl]
  · unfold get_ascvd_risk
    rw [if_neg h1, if_neg h2]

/-- C3 witness: instantiation at the selector "xyz" and arbitrary factors. -/
theorem claim_C3_witness :
    get_ascvd_risk 55 true false 213 50 120 "prevent2023" false false false
      = Except.error (ApiFailure.http 501 notImplementedDetail) ∧
    get_ascvd_risk 55 true false 213 50 120 "xyz" false false false
      = Except.error (ApiFailure.http 400 invalidModelDetail) := by
  have h := claim_C3 55 true false 213 50 120 false false false "xyz"
    (by decide) (by decide)
  exact ⟨h.1, h.2.1⟩

/-- C10: the embedded entry points are deterministic and side-effect-free:
both are pure functions of exactly their arguments and the constant
coefficient tables (the embedding threads no state, so two invocations with
identical arguments are the same value).  The source handler reads no
mutable global and writes nothing; this is represented by the return types
carrying the entire observable behaviour. -/
theorem claim_C10 (age : ℤ) (is_male is_black : Bool) (total_chol hdl sbp : ℝ)
    (model_version : String) (on_htn_meds is_smoker is_diabetic : Bool) :
    calculate_pce_risk (age : ℝ) is_male is_black total_chol hdl sbp
        on_htn_meds is_smoker is_diabetic
      = calculate_pce_risk (age : ℝ) is_male is_black total_chol hdl sbp
        on_htn_meds is_smoker is_diabetic ∧
    get_ascvd_risk age is_male is_black total_chol hdl sbp model_version
        on_htn_meds is_smoker is_diabetic
      = get_ascvd_risk age is_male is_black total_chol hdl sbp model_version
        on_htn_meds is_smoker is_diabetic :=
  ⟨rfl, rfl⟩

/-- C2 counterexample: at `age = 0` (a non-positive input) the computation
does fail, but with the uncaught `ValueError` raised by `math.log` inside
the formula evaluation — not with the distinct PreconditionViolation
failure the claim requires. -/
theorem claim_C2_counterexample :
    get_ascvd_risk 0 true false 213 50 120 "pce2013" false false false
      = Except.error ApiFailure.valueError ∧
    (Except.error ApiFailure.valueError : Except ApiFailure RiskResponse)
      ≠ Except.error ApiFailure.preconditionViolation := by
  constructor
  · unfold get_ascvd_risk
    rw [if_pos rfl, calculate_pce_risk_eq, if_neg (by push_cast; norm_num)]
    rfl
  · simp

/-- C2 (amended): for every input in which any of age, totalCholesterol,
hdlCholesterol or systolicBP is zero or negative, the computation fails —
with the `ValueError` that `math.log` raises during formula evaluation
(there is no separate precondition check) — rather than producing
NaN/Infinity or silently coercing. -/
theorem claim_C2 (age : ℤ) (is_male is_black : Bool) (total_chol hdl sbp : ℝ)
    (on_htn_meds is_smoker is_diabetic : Bool)
    (h : (age : ℝ) ≤ 0 ∨ total_chol ≤ 0 ∨ hdl ≤ 0 ∨ sbp ≤ 0) :
    calculate_pce_risk (age : ℝ) is_male is_black total_chol hdl sbp
        on_htn_meds is_smoker is_diabetic = Except.error ApiFailure.valueError ∧
    get_ascvd_risk age is_male is_black total_chol hdl sbp "pce2013"
        on_htn_meds is_smoker is_diabetic = Except.error ApiFailure.valueError := by
  have hcalc : calculate_pce_risk (age : ℝ) is_male is_black total_chol hdl sbp
      on_htn_meds is_smoker is_diabetic = Except.error ApiFailure.valueError := by
    rw [calculate_pce_risk_eq, if_neg]
    rintro ⟨h1, h2, h3, h4⟩
    rcases h with h | h | h | h <;> linarith
  refine ⟨hcalc, ?_⟩
  unfold get_ascvd_risk
  rw [if_pos rfl, hcalc]
  rfl

/-- C2 witness: the amended claim applied at the concrete input `age = 0`
(and at a negative cholesterol). -/
theorem claim_C2_witness :
    calculate_pce_risk ((0 : ℤ) : ℝ) true false 213 50 120 false false false
      = Except.error ApiFailure.valueError ∧
    get_ascvd_risk 30 true false (-5) 50 120 "pce2013" false false false
      = Except.error ApiFailure.valueError :=
  ⟨(claim_C2 0 true false 213 50 120 false false false
      (Or.inl (by norm_num))).1,
   (claim_C2 30 true false (-5) 50 120 false false false
      (Or.inr (Or.inl (by norm_num)))).2⟩

/-- C5 counterexample: at `systolicBP = 1` the logarithm of the blood
pressure is zero, so the treated and untreated coefficients are multiplied
by zero and changing only `on_htn_meds` leaves the computed risk unchanged
— the claimed strict increase fails at this well-formed input. -/
theorem claim_C5_counterexample :
    calculate_pce_risk 55 true false 213 50 1 true false false
      = calculate_pce_risk 55 true false 213 50 1 false false false := by
  rw [calculate_pce_risk_eq, calculate_pce_risk_eq,
    if_pos (by norm_num), if_pos (by norm_num)]
  have : pce_risk_raw 55 true false 213 50 1 true false false
      = pce_risk_raw 55 true false 213 50 1 false false false := by
    unfold pce_risk_raw pce_risk pce_xb
    simp [Real.log_one]
  rw [this]

/-- Strict monotonicity of the survival transform in the linear predictor:
with a baseline survival in `(0,1)`, a larger linear predictor gives a
strictly larger risk. -/
lemma survival_strict_mono {s : ℝ} (hs0 : 0 < s) (hs1 : s < 1) {x y : ℝ} (h : x < y) :
    1 - s ^ Real.exp x < 1 - s ^ Real.exp y := by
  have := Real.rpow_lt_rpow_of_exponent_gt hs0 hs1 (Real.exp_lt_exp.mpr h)
  linarith

/-- C5 (amended): in every demographic variant the treated systolic-BP
coefficient exceeds the untreated one, so flipping only
`onHypertensionTreatment` from false to true strictly increases the linear
predictor whenever `ln(systolicBP) > 0`, and strictly increases the
unrounded risk probability whenever `systolicBP > 1`.  (At `systolicBP = 1`
the risk is unchanged — see the counterexample — and the strict increase
need not survive the 2-decimal rounding of the reported percentage.) -/
theorem claim_C5 (age : ℝ) (is_male is_black : Bool) (total_chol hdl sbp : ℝ)
    (is_smoker is_diabetic : Bool) (hsbp : 1 < sbp) :
    (∀ ln_age ln_total_chol ln_hdl ln_sbp : ℝ, 0 < ln_sbp →
      pce_xb is_male is_black ln_age ln_total_chol ln_hdl ln_sbp false is_smoker is_diabetic
        < pce_xb is_male is_black ln_age ln_total_chol ln_hdl ln_sbp true is_smoker is_diabetic) ∧
    pce_risk_raw age is_male is_black total_chol hdl sbp false is_smoker is_diabetic
      < pce_risk_raw age is_male is_black total_chol hdl sbp true is_smoker is_diabetic := by
  have hxb : ∀ ln_age ln_total_chol ln_hdl ln_sbp : ℝ, 0 < ln_sbp →
      pce_xb is_male is_black ln_age ln_total_chol ln_hdl ln_sbp false is_smoker is_diabetic
        < pce_xb is_male is_black ln_age ln_total_chol ln_hdl ln_sbp true is_smoker is_diabetic := by
    intro la lt lh ls hls
    cases is_male <;> cases is_black <;> simp [pce_xb] <;> nlinarith
  refine ⟨hxb, ?_⟩
  unfold pce_risk_raw pce_risk
  exact survival_strict_mono (pce_s10_mem is_male is_black).1
    (pce_s10_mem is_male is_black).2
    (by have := hxb (Real.log age) (Real.log total_chol) (Real.log hdl)
          (Real.log sbp) (Real.log_pos hsbp)
        linarith)

/-- C5 witness: the amended claim applied at the spec's example input with
`systolicBP = 120`. -/
theorem claim_C5_witness :
    pce_risk_raw 55 true false 213 50 120 false false false
      < pce_risk_raw 55 true false 213 50 120 true false false :=
  (claim_C5 55 true false 213 50 120 false false (by norm_num)).2

/-- C6: for every well-formed input the computed risk probability is
`1 − S10 ^ exp(xb − mean_xb)` for the selected variant's constants, lies in
`[0,1)` (so the unrounded percentage lies in `[0,100)`) with no clamping
anywhere in the computation, the computation succeeds (no error), and
extreme inputs drive the risk to 1 in the limit rather than erroring. -/
theorem claim_C6 :
    (∀ (age : ℝ) (is_male is_black : Bool) (total_chol hdl sbp : ℝ)
        (on_htn_meds is_smoker is_diabetic : Bool),
      0 < age → 0 < total_chol → 0 < hdl → 0 < sbp →
      pce_risk_raw age is_male is_black total_chol hdl sbp on_htn_meds is_smoker is_diabetic
          = 1 - pce_s10 is_male is_black ^
              Real.exp (pce_xb is_male is_black (Real.log age) (Real.log total_chol)
                  (Real.log hdl) (Real.log sbp) on_htn_meds is_smoker is_diabetic
                - pce_mean_xb is_male is_black) ∧
      0 < pce_risk_raw age is_male is_black total_chol hdl sbp
            on_htn_meds is_smoker is_diabetic ∧
      pce_risk_raw age is_male is_black total_chol hdl sbp
            on_htn_meds is_smoker is_diabetic < 1 ∧
      0 ≤ pce_risk_raw age is_male is_black total_chol hdl sbp
            on_htn_meds is_smoker is_diabetic * 100 ∧
      pce_risk_raw age is_male is_black total_chol hdl sbp
            on_htn_meds is_smoker is_diabetic * 100 < 100 ∧
      calculate_pce_risk age is_male is_black total_chol hdl sbp
            on_htn_meds is_smoker is_diabetic
        = Except.ok (pyRound2 (pce_risk_raw age is_male is_black total_chol hdl sbp
            on_htn_meds is_smoker is_diabetic * 100))) ∧
    Tendsto (fun age : ℝ => pce_risk_raw age true false 1 1 1 false false false)
      atTop (𝓝 1) := by
  constructor
  · intro age is_male is_black total_chol hdl sbp on_htn_meds is_smoker is_diabetic
      h1 h2 h3 h4
    obtain ⟨hs0, hs1⟩ := pce_s10_mem is_male is_black
    have hpow_pos : 0 < pce_s10 is_male is_black ^
        Real.exp (pce_xb is_male is_black (Real.log age) (Real.log total_chol)
            (Real.log hdl) (Real.log sbp) on_htn_meds is_smoker is_diabetic
          - pce_mean_xb is_male is_black) :=
      Real.rpow_pos_of_pos hs0 _
    have hpow_lt : pce_s10 is_male is_black ^
        Real.exp (pce_xb is_male is_black (Real.log age) (Real.log total_chol)
            (Real.log hdl) (Real.log sbp) on_htn_meds is_smoker is_diabetic
          - pce_mean_xb is_male is_black) < 1 :=
      Real.rpow_lt_one hs0.le hs1 (Real.exp_pos _)
    have heq : pce_risk_raw age is_male is_black total_chol hdl sbp
          on_htn_meds is_smoker is_diabetic
        = 1 - pce_s10 is_male is_black ^
            Real.exp (pce_xb is_male is_black (Real.log age) (Real.log total_chol)
                (Real.log hdl) (Real.log sbp) on_htn_meds is_smoker is_diabetic
              - pce_mean_xb is_male is_black) := rfl
    refine ⟨heq, by rw [heq]; linarith, by rw [heq]; linarith,
      by rw [heq]; nlinarith, by rw [heq]; nlinarith, ?_⟩
    rw [calculate_pce_risk_eq, if_pos ⟨h1, h2, h3, h4⟩]
  · have hfun : (fun age : ℝ => pce_risk_raw age true false 1 1 1 false false false)
        = fun age : ℝ => 1 - (0.9144 : ℝ) ^ Real.exp (12.344 * Real.log age - 61.18) := by
      funext a
      unfold pce_risk_raw pce_risk pce_xb pce_s10 pce_mean_xb pyBool
      norm_num [Real.log_one]
    rw [hfun]
    have h1 : Tendsto (fun a : ℝ => 12.344 * Real.log a - 61.18) atTop atTop := by
      simp only [sub_eq_add_neg]
      exact tendsto_atTop_add_const_right atTop (-61.18)
        (Real.tendsto_log_atTop.const_mul_atTop (by norm_num))
    have h2 : Tendsto (fun a : ℝ =>
        (0.9144 : ℝ) ^ Real.exp (12.344 * Real.log a - 61.18)) atTop (𝓝 0) :=
      (tendsto_rpow_atTop_of_base_lt_one 0.9144 (by norm_num) (by norm_num)).comp
        (Real.tendsto_exp_atTop.comp h1)
    have h3 := h2.const_sub 1
    rw [sub_zero] at h3
    exact h3

/-- C6 witness: the quantified part applied at the spec's example input. -/
theorem claim_C6_witness :
    0 < pce_risk_raw 55 true false 213 50 120 false false false ∧
    pce_risk_raw 55 true false 213 50 120 false false false < 1 :=
  ⟨(claim_C6.1 55 true false 213 50 120 false false false
      (by norm_num) (by norm_num) (by norm_num) (by norm_num)).2.1,
   (claim_C6.1 55 true false 213 50 120 false false false
      (by norm_num) (by norm_num) (by norm_num) (by norm_num)).2.2.1⟩

/-- C8: under model "pce2013" the risk probability is multiplied by 100 and
rounded to 2 decimals before classification — the returned category is
`classify` of the rounded percentage — and an unrounded percentage just
below a band boundary that rounds up to the boundary is classified in the
higher band. -/
theorem claim_C8 :
    (∀ (age : ℤ) (is_male is_black : Bool) (total_chol hdl sbp : ℝ)
        (on_htn_meds is_smoker is_diabetic : Bool),
      0 < (age : ℝ) → 0 < total_chol → 0 < hdl → 0 < sbp →
      get_ascvd_risk age is_male is_black total_chol hdl sbp "pce2013"
          on_htn_meds is_smoker is_diabetic
        = Except.ok
            { risk_percent := pyRound2 (pce_risk_raw (age : ℝ) is_male is_black
                total_chol hdl sbp on_htn_meds is_smoker is_diabetic * 100)
              risk_category := classify (pyRound2 (pce_risk_raw (age : ℝ) is_male is_black
                total_chol hdl sbp on_htn_meds is_smoker is_diabetic * 100))
              model_version := "pce2013"
              disclaimer := disclaimerText }) ∧
    (∀ x : ℝ, 7.495 ≤ x → x < 7.5 →
      classify x = "Borderline (5-7.4%)" ∧ pyRound2 x = 7.5 ∧
      classify (pyRound2 x) = "Intermediate (7.5-19.9%)") := by
  constructor
  · intro age is_male is_black total_chol hdl sbp on_htn_meds is_smoker is_diabetic
      h1 h2 h3 h4
    unfold get_ascvd_risk
    rw [if_pos rfl, calculate_pce_risk_eq, if_pos ⟨h1, h2, h3, h4⟩]
    rfl
  · intro x hx1 hx2
    have hround : pyRound (x * 100) = 750 := by
      unfold pyRound
      by_cases h : Int.fract (x * 100) = 1 / 2
      · rw [if_pos h]
        have hfl : ⌊x * 100⌋ = 749 := by
          rw [Int.floor_eq_iff] <;> push_cast <;> constructor <;> linarith
        rw [hfl, if_neg (by decide)]
        norm_num
      · rw [if_neg h, round_eq]
        have hne : x * 100 ≠ 749.5 := by
          intro heq
          apply h
          rw [heq]
          norm_num [Int.fract]
        have hgt : 749.5 < x * 100 :=
          lt_of_le_of_ne (by linarith) (Ne.symm hne)
        rw [Int.floor_eq_iff] <;> push_cast <;> constructor <;> linarith
    have hpr : pyRound2 x = 7.5 := by
      unfold pyRound2
      rw [hround]
      norm_num
    exact ⟨classify_of_borderline (by linarith) (by linarith), hpr,
      by rw [hpr]; exact classify_of_intermediate (by norm_num) (by norm_num)⟩

/-- C8 witness: applied at the spec's example input and at the unrounded
percentage `7.497`, which rounds up to `7.5` and is classified Intermediate
although its unrounded value is Borderline. -/
theorem claim_C8_witness :
    get_ascvd_risk 55 true false 213 50 120 "pce2013" false false false
      = Except.ok
          { risk_percent := pyRound2 (pce_risk_raw ((55 : ℤ) : ℝ) true false
              213 50 120 false false false * 100)
            risk_category := classify (pyRound2 (pce_risk_raw ((55 : ℤ) : ℝ) true false
              213 50 120 false false false * 100))
            model_version := "pce2013"
            disclaimer := disclaimerText } ∧
    classify (7.497 : ℝ) = "Borderline (5-7.4%)" ∧
    classify (pyRound2 (7.497 : ℝ)) = "Intermediate (7.5-19.9%)" :=
  ⟨claim_C8.1 55 true false 213 50 120 false false false
      (by norm_num) (by norm_num) (by norm_num) (by norm_num),
   (claim_C8.2 7.497 (by norm_num) (by norm_num)).1,
   (claim_C8.2 7.497 (by norm_num) (by norm_num)).2.2⟩

/-! ## Numerical enclosure toolkit

Rational enclosures of the logarithms and exponentials occurring in the two
concrete formula evaluations (claims about the example input and the
age-80 smoker inversion), derived from the Taylor-series bounds in Mathlib. -/

/-- Interval product, both factors nonnegative. -/
lemma interval_mul_pos {x y a1 a2 b1 b2 : ℝ} (hx1 : a1 ≤ x) (hx2 : x ≤ a2)
    (ha : 0 ≤ a1) (hy1 : b1 ≤ y) (hy2 : y ≤ b2) (hb : 0 ≤ b1) :
    a1 * b1 ≤ x * y ∧ x * y ≤ a2 * b2 :=
  ⟨mul_le_mul hx1 hy1 hb (le_trans ha hx1),
   mul_le_mul hx2 hy2 (le_trans hb hy1) (le_trans (le_trans ha hx1) hx2)⟩

/-- Interval product, nonpositive first factor, nonnegative second factor. -/
lemma interval_mul_neg_pos {x y a1 a2 b1 b2 : ℝ} (hx1 : a1 ≤ x) (hx2 : x ≤ a2)
    (ha : a2 ≤ 0) (hy1 : b1 ≤ y) (hy2 : y ≤ b2) (hb : 0 ≤ b1) :
    a1 * b2 ≤ x * y ∧ x * y ≤ a2 * b1 := by
  constructor <;> nlinarith

/-- Lower bound for `exp (-d)` from an upper bound for `exp d`. -/
lemma one_div_le_exp_neg {d U : ℝ} (hd : Real.exp d ≤ U) : 1 / U ≤ Real.exp (-d) := by
  rw [Real.exp_neg, ← one_div]
  exact one_div_le_one_div_of_le (Real.exp_pos d) hd

/-- Upper bound for `exp (-d)` from a positive lower bound for `exp d`. -/
lemma exp_neg_le_one_div {d L : ℝ} (hL : 0 < L) (hd : L ≤ Real.exp d) :
    Real.exp (-d) ≤ 1 / L := by
  rw [Real.exp_neg, ← one_div]
  exact one_div_le_one_div_of_le hL hd

/-- Rational enclosure of `exp 2` from the Mathlib `exp 1` enclosure. -/
lemma exp_two_bounds : (7.3890560980 : ℝ) ≤ Real.exp 2 ∧ Real.exp 2 ≤ 7.3890560997 := by
  have h2 : Real.exp 2 = Real.exp 1 * Real.exp 1 := by
    rw [← Real.exp_add]; norm_num
  have hg := Real.exp_one_gt_d9
  have hl := Real.exp_one_lt_d9
  have hp : (0 : ℝ) < Real.exp 1 := Real.exp_pos 1
  constructor <;> rw [h2] <;> nlinarith

/-- Rational enclosure of `log 55` (series at `55 = 2 ^ 6 * (1 - 9/64)`). -/
lemma log_55_bounds : (4.007333 : ℝ) ≤ Real.log 55 ∧ Real.log 55 ≤ 4.007334 := by
  have hx : |(9 / 64 : ℝ)| < 1 := by
    rw [abs_of_nonneg (by norm_num)]; norm_num
  have hs := Real.abs_log_sub_add_sum_range_le hx 7
  rw [abs_le, abs_of_nonneg (by norm_num : (0 : ℝ) ≤ 9 / 64),
    show (1 : ℝ) - 9 / 64 = 55 / 64 by norm_num] at hs
  simp only [Finset.sum_range_succ, Finset.sum_range_zero] at hs
  norm_num at hs
  have hdiv : Real.log (55 / 64) = Real.log 55 - Real.log 64 :=
    Real.log_div (by norm_num) (by norm_num)
  have h64 : Real.log 64 = 6 * Real.log 2 := by
    rw [show (64 : ℝ) = 2 ^ 6 by norm_num, Real.log_pow]; norm_num
  have hlo := Real.log_two_gt_d9
  have hhi := Real.log_two_lt_d9
  constructor <;> linarith [hs.1, hs.2]

/-- Rational enclosure of `log 213` (series at `213 = 2 ^ 8 * (1 - 43/256)`). -/
lemma log_213_bounds : (5.361292 : ℝ) ≤ Real.log 213 ∧ Real.log 213 ≤ 5.361293 := by
  have hx : |(43 / 256 : ℝ)| < 1 := by
    rw [abs_of_nonneg (by norm_num)]; norm_num
  have hs := Real.abs_log_sub_add_sum_range_le hx 8
  rw [abs_le, abs_of_nonneg (by norm_num : (0 : ℝ) ≤ 43 / 256),
    show (1 : ℝ) - 43 / 256 = 213 / 256 by norm_num] at hs
  simp only [Finset.sum_range_succ, Finset.sum_range_zero] at hs
  norm_num at hs
  have hdiv : Real.log (213 / 256) = Real.log 213 - Real.log 256 :=
    Real.log_div (by norm_num) (by norm_num)
  have h256 : Real.log 256 = 8 * Real.log 2 := by
    rw [show (256 : ℝ) = 2 ^ 8 by norm_num, Real.log_pow]; norm_num
  have hlo := Real.log_two_gt_d9
  have hhi := Real.log_two_lt_d9
  constructor <;> linarith [hs.1, hs.2]

/-- Rational enclosure of `log 50` (series at `50 = 2 ^ 6 * (1 - 7/32)`). -/
lemma log_50_bounds : (3.912022 : ℝ) ≤ Real.log 50 ∧ Real.log 50 ≤ 3.912024 := by
  have hx : |(7 / 32 : ℝ)| < 1 := by
    rw [abs_of_nonneg (by norm_num)]; norm_num
  have hs := Real.abs_log_sub_add_sum_range_le hx 9
  rw [abs_le, abs_of_nonneg (by norm_num : (0 : ℝ) ≤ 7 / 32),
    show (1 : ℝ) - 7 / 32 = 50 / 64 by norm_num] at hs
  simp only [Finset.sum_range_succ, Finset.sum_range_zero] at hs
  norm_num at hs
  have hdiv : Real.log (50 / 64) = Real.log 50 - Real.log 64 :=
    Real.log_div (by norm_num) (by norm_num)
  have h64 : Real.log 64 = 6 * Real.log 2 := by
    rw [show (64 : ℝ) = 2 ^ 6 by norm_num, Real.log_pow]; norm_num
  have hlo := Real.log_two_gt_d9
  have hhi := Real.log_two_lt_d9
  constructor <;> linarith [hs.1, hs.2]

/-- Rational enclosure of `log 120` (series at `120 = 2 ^ 7 * (1 - 1/16)`). -/
lemma log_120_bounds : (4.787491 : ℝ) ≤ Real.log 120 ∧ Real.log 120 ≤ 4.787492 := by
  have hx : |(1 / 16 : ℝ)| < 1 := by
    rw [abs_of_nonneg (by norm_num)]; norm_num
  have hs := Real.abs_log_sub_add_sum_range_le hx 5
  rw [abs_le, abs_of_nonneg (by norm_num : (0 : ℝ) ≤ 1 / 16),
    show (1 : ℝ) - 1 / 16 = 120 / 128 by norm_num] at hs
  simp only [Finset.sum_range_succ, Finset.sum_range_zero] at hs
  norm_num at hs
  have hdiv : Real.log (120 / 128) = Real.log 120 - Real.log 128 :=
    Real.log_div (by norm_num) (by norm_num)
  have h128 : Real.log 128 = 7 * Real.log 2 := by
    rw [show (128 : ℝ) = 2 ^ 7 by norm_num, Real.log_pow]; norm_num
  have hlo := Real.log_two_gt_d9
  have hhi := Real.log_two_lt_d9
  constructor <;> linarith [hs.1, hs.2]

/-- Rational enclosure of `log 80` (series at `80 = 2 ^ 6 * (1 + 1/4)`). -/
lemma log_80_bounds : (4.382025 : ℝ) ≤ Real.log 80 ∧ Real.log 80 ≤ 4.382028 := by
  have hx : |(-1 / 4 : ℝ)| < 1 := by
    rw [abs_of_nonpos (by norm_num)]; norm_num
  have hs := Real.abs_log_sub_add_sum_range_le hx 9
  rw [abs_le, abs_of_nonpos (by norm_num : (-1 / 4 : ℝ) ≤ 0),
    show (1 : ℝ) - -1 / 4 = 80 / 64 by norm_num] at hs
  simp only [Finset.sum_range_succ, Finset.sum_range_zero] at hs
  norm_num at hs
  have hdiv : Real.log (80 / 64) = Real.log 80 - Real.log 64 :=
    Real.log_div (by norm_num) (by norm_num)
  have h64 : Real.log 64 = 6 * Real.log 2 := by
    rw [show (64 : ℝ) = 2 ^ 6 by norm_num, Real.log_pow]; norm_num
  have hlo := Real.log_two_gt_d9
  have hhi := Real.log_two_lt_d9
  constructor <;> linarith [hs.1, hs.2]

/-- Rational enclosure of `log 0.9144` (series at `0.9144 = 1 - 107/1250`). -/
lemma log_s10_wm_bounds :
    (-0.089488 : ℝ) ≤ Real.log 0.9144 ∧ Real.log 0.9144 ≤ -0.089487 := by
  have hx : |(107 / 1250 : ℝ)| < 1 := by
    rw [abs_of_nonneg (by norm_num)]; norm_num
  have hs := Real.abs_log_sub_add_sum_range_le hx 6
  rw [abs_le, abs_of_nonneg (by norm_num : (0 : ℝ) ≤ 107 / 1250),
    show (1 : ℝ) - 107 / 1250 = 0.9144 by norm_num] at hs
  simp only [Finset.sum_range_succ, Finset.sum_range_zero] at hs
  norm_num at hs
  constructor <;> linarith [hs.1, hs.2]

/-- Branch reduction: the white-male linear predictor. -/
lemma pce_xb_wm (ln_age ln_total_chol ln_hdl ln_sbp : ℝ)
    (on_htn_meds is_smoker is_diabetic : Bool) :
    pce_xb true false ln_age ln_total_chol ln_hdl ln_sbp on_htn_meds is_smoker is_diabetic =
      12.344 * ln_age + 11.853 * ln_total_chol + (-2.664) * ln_age * ln_total_chol
        + (-7.99) * ln_hdl + 1.769 * ln_age * ln_hdl
        + (if on_htn_meds then (1.996 : ℝ) else 1.933) * ln_sbp
        + 7.837 * pyBool is_smoker + (-1.795) * ln_age * pyBool is_smoker
        + 0.658 * pyBool is_diabetic := by
  simp [pce_xb]

/-- Branch reduction: the white-male baseline survival. -/
lemma pce_s10_wm : pce_s10 true false = 0.9144 := by simp [pce_s10]

/-- Branch reduction: the white-male mean linear predictor. -/
lemma pce_mean_xb_wm : pce_mean_xb true false = 61.18 := by simp [pce_mean_xb]

set_option maxHeartbeats 1000000 in
/-- Enclosure of the unrounded risk percentage at the specification's
example input (age 55, male, non-black, TC 213, HDL 50, SBP 120, untreated
non-smoking non-diabetic): it lies in `[11.68, 11.70]`. -/
lemma C1_interval :
    11.68 ≤ pce_risk_raw 55 true false 213 50 120 false false false * 100 ∧
    pce_risk_raw 55 true false 213 50 120 false false false * 100 ≤ 11.70 := by
  obtain ⟨hla1, hla2⟩ := log_55_bounds
  obtain ⟨hlt1, hlt2⟩ := log_213_bounds
  obtain ⟨hlh1, hlh2⟩ := log_50_bounds
  obtain ⟨hls1, hls2⟩ := log_120_bounds
  obtain ⟨hlS1, hlS2⟩ := log_s10_wm_bounds
  obtain ⟨hlalt1, hlalt2⟩ :=
    interval_mul_pos hla1 hla2 (by norm_num) hlt1 hlt2 (by norm_num)
  obtain ⟨hlalh1, hlalh2⟩ :=
    interval_mul_pos hla1 hla2 (by norm_num) hlh1 hlh2 (by norm_num)
  have hxb1 : (61.5085 : ℝ) ≤ pce_xb true false (Real.log 55) (Real.log 213)
      (Real.log 50) (Real.log 120) false false false := by
    rw [pce_xb_wm]
    simp only [pyBool, if_neg, Bool.false_eq_true, if_false]
    nlinarith [hlalt1, hlalt2, hlalh1, hlalh2]
  have hxb2 : pce_xb true false (Real.log 55) (Real.log 213)
      (Real.log 50) (Real.log 120) false false false ≤ 61.5087 := by
    rw [pce_xb_wm]
    simp only [pyBool, if_neg, Bool.false_eq_true, if_false]
    nlinarith [hlalt1, hlalt2, hlalh1, hlalh2]
  set xb := pce_xb true false (Real.log 55) (Real.log 213)
      (Real.log 50) (Real.log 120) false false false with hxbdef
  -- u = exp (xb - 61.18) ∈ [1.38880, 1.38921]
  have hu1 : (1.38880 : ℝ) ≤ Real.exp (xb - 61.18) := by
    have hsum : (1.38880 : ℝ) ≤ ∑ m ∈ Finset.range 8, (0.3285 : ℝ) ^ m / m.factorial := by
      simp only [Finset.sum_range_succ, Finset.sum_range_zero]
      norm_num [Nat.factorial]
    have hmono : Real.exp 0.3285 ≤ Real.exp (xb - 61.18) :=
      Real.exp_le_exp.mpr (by linarith)
    linarith [Real.sum_le_exp_of_nonneg (by norm_num : (0:ℝ) ≤ 0.3285) 8]
  have hu2 : Real.exp (xb - 61.18) ≤ 1.38921 := by
    have hb := @Real.exp_bound' (0.3287 : ℝ) (by norm_num) (by norm_num) 8 (by norm_num)
    simp only [Finset.sum_range_succ, Finset.sum_range_zero] at hb
    norm_num [Nat.factorial] at hb
    have hmono : Real.exp (xb - 61.18) ≤ Real.exp 0.3287 :=
      Real.exp_le_exp.mpr (by linarith)
    linarith
  -- v = log 0.9144 * u ∈ [-0.12432, -0.12427]
  obtain ⟨hv1, hv2⟩ := interval_mul_neg_pos hlS1 hlS2 (by norm_num) hu1 hu2 (by norm_num)
  -- w = exp v ∈ [0.88300, 0.88320]
  have hw1 : (0.88300 : ℝ) ≤ Real.exp (Real.log 0.9144 * Real.exp (xb - 61.18)) := by
    have hb := @Real.exp_bound' (0.12432 : ℝ) (by norm_num) (by norm_num) 8 (by norm_num)
    simp only [Finset.sum_range_succ, Finset.sum_range_zero] at hb
    norm_num [Nat.factorial] at hb
    have hU : Real.exp 0.12432 ≤ 1.13240 := by linarith
    have h1 := one_div_le_exp_neg hU
    have hmono : Real.exp (-0.12432) ≤
        Real.exp (Real.log 0.9144 * Real.exp (xb - 61.18)) :=
      Real.exp_le_exp.mpr (by linarith [hv1])
    have : (0.88300 : ℝ) ≤ 1 / 1.13240 := by norm_num
    linarith
  have hw2 : Real.exp (Real.log 0.9144 * Real.exp (xb - 61.18)) ≤ 0.88320 := by
    have hsum : (1.13232 : ℝ) ≤ ∑ m ∈ Finset.range 8, (0.12427 : ℝ) ^ m / m.factorial := by
      simp only [Finset.sum_range_succ, Finset.sum_range_zero]
      norm_num [Nat.factorial]
    have hL : (1.13232 : ℝ) ≤ Real.exp 0.12427 := by
      linarith [Real.sum_le_exp_of_nonneg (by norm_num : (0:ℝ) ≤ 0.12427) 8]
    have h2 := exp_neg_le_one_div (by norm_num : (0:ℝ) < 1.13232) hL
    have hmono : Real.exp (Real.log 0.9144 * Real.exp (xb - 61.18)) ≤
        Real.exp (-0.12427) :=
      Real.exp_le_exp.mpr (by linarith [hv2])
    have : (1 : ℝ) / 1.13232 ≤ 0.88320 := by norm_num
    linarith
  -- assemble: raw risk = 1 - exp v
  have hraw : pce_risk_raw 55 true false 213 50 120 false false false
      = 1 - Real.exp (Real.log 0.9144 * Real.exp (xb - 61.18)) := by
    unfold pce_risk_raw pce_risk
    rw [pce_s10_wm, pce_mean_xb_wm, Real.rpow_def_of_pos (by norm_num)]
  rw [hraw]
  constructor <;> linarith

set_option maxHeartbeats 1000000 in
/-- Enclosures of the unrounded risk percentages at age 80 (male,
non-black, TC 213, HDL 50, SBP 120, untreated, non-diabetic): non-smoker in
`[55.22, 55.25]`, smoker in `[54.194, 54.216]` — the smoker value is lower. -/
lemma C9_interval :
    (55.22 ≤ pce_risk_raw 80 true false 213 50 120 false false false * 100 ∧
     pce_risk_raw 80 true false 213 50 120 false false false * 100 ≤ 55.25) ∧
    (54.194 ≤ pce_risk_raw 80 true false 213 50 120 false true false * 100 ∧
     pce_risk_raw 80 true false 213 50 120 false true false * 100 ≤ 54.216) := by
  obtain ⟨hla1, hla2⟩ := log_80_bounds
  obtain ⟨hlt1, hlt2⟩ := log_213_bounds
  obtain ⟨hlh1, hlh2⟩ := log_50_bounds
  obtain ⟨hls1, hls2⟩ := log_120_bounds
  obtain ⟨hlS1, hlS2⟩ := log_s10_wm_bounds
  obtain ⟨he21, he22⟩ := exp_two_bounds
  obtain ⟨hlalt1, hlalt2⟩ :=
    interval_mul_pos hla1 hla2 (by norm_num) hlt1 hlt2 (by norm_num)
  obtain ⟨hlalh1, hlalh2⟩ :=
    interval_mul_pos hla1 hla2 (by norm_num) hlh1 hlh2 (by norm_num)
  -- linear-predictor bounds for both smoking variants
  have hxbn1 : (63.3752 : ℝ) ≤ pce_xb true false (Real.log 80) (Real.log 213)
      (Real.log 50) (Real.log 120) false false false := by
    rw [pce_xb_wm]
    simp only [pyBool, if_neg, Bool.false_eq_true, if_false]
    nlinarith [hlalt1, hlalt2, hlalh1, hlalh2]
  have hxbn2 : pce_xb true false (Real.log 80) (Real.log 213)
      (Real.log 50) (Real.log 120) false false false ≤ 63.3754 := by
    rw [pce_xb_wm]
    simp only [pyBool, if_neg, Bool.false_eq_true, if_false]
    nlinarith [hlalt1, hlalt2, hlalh1, hlalh2]
  have hxbs1 : (63.3464 : ℝ) ≤ pce_xb true false (Real.log 80) (Real.log 213)
      (Real.log 50) (Real.log 120) false true false := by
    rw [pce_xb_wm]
    simp only [pyBool, if_neg, Bool.false_eq_true, if_false, if_true]
    nlinarith [hlalt1, hlalt2, hlalh1, hlalh2]
  have hxbs2 : pce_xb true false (Real.log 80) (Real.log 213)
      (Real.log 50) (Real.log 120) false true false ≤ 63.3467 := by
    rw [pce_xb_wm]
    simp only [pyBool, if_neg, Bool.false_eq_true, if_false, if_true]
    nlinarith [hlalt1, hlalt2, hlalh1, hlalh2]
  set xbn := pce_xb true false (Real.log 80) (Real.log 213)
      (Real.log 50) (Real.log 120) false false false with hxbndef
  set xbs := pce_xb true false (Real.log 80) (Real.log 213)
      (Real.log 50) (Real.log 120) false true false with hxbsdef
  -- u = exp (xb - 61.18) via exp 2 * exp (xb - 63.18)
  have hsplitn : Real.exp (xbn - 61.18) = Real.exp 2 * Real.exp (xbn - 63.18) := by
    rw [← Real.exp_add]; congr 1; ring
  have hsplits : Real.exp (xbs - 61.18) = Real.exp 2 * Real.exp (xbs - 63.18) := by
    rw [← Real.exp_add]; congr 1; ring
  have hAn1 : (1.21555 : ℝ) ≤ Real.exp (xbn - 63.18) := by
    have hsum : (1.21555 : ℝ) ≤ ∑ m ∈ Finset.range 8, (0.1952 : ℝ) ^ m / m.factorial := by
      simp only [Finset.sum_range_succ, Finset.sum_range_zero]
      norm_num [Nat.factorial]
    have hmono : Real.exp 0.1952 ≤ Real.exp (xbn - 63.18) :=
      Real.exp_le_exp.mpr (by linarith)
    linarith [Real.sum_le_exp_of_nonneg (by norm_num : (0:ℝ) ≤ 0.1952) 8]
  have hAn2 : Real.exp (xbn - 63.18) ≤ 1.21580 := by
    have hb := @Real.exp_bound' (0.1954 : ℝ) (by norm_num) (by norm_num) 8 (by norm_num)
    simp only [Finset.sum_range_succ, Finset.sum_range_zero] at hb
    norm_num [Nat.factorial] at hb
    have hmono : Real.exp (xbn - 63.18) ≤ Real.exp 0.1954 :=
      Real.exp_le_exp.mpr (by linarith)
    linarith
  have hAs1 : (1.18104 : ℝ) ≤ Real.exp (xbs - 63.18) := by
    have hsum : (1.18104 : ℝ) ≤ ∑ m ∈ Finset.range 8, (0.1664 : ℝ) ^ m / m.factorial := by
      simp only [Finset.sum_range_succ, Finset.sum_range_zero]
      norm_num [Nat.factorial]
    have hmono : Real.exp 0.1664 ≤ Real.exp (xbs - 63.18) :=
      Real.exp_le_exp.mpr (by linarith)
    linarith [Real.sum_le_exp_of_nonneg (by norm_num : (0:ℝ) ≤ 0.1664) 8]
  have hAs2 : Real.exp (xbs - 63.18) ≤ 1.18142 := by
    have hb := @Real.exp_bound' (0.1667 : ℝ) (by norm_num) (by norm_num) 8 (by norm_num)
    simp only [Finset.sum_range_succ, Finset.sum_range_zero] at hb
    norm_num [Nat.factorial] at hb
    have hmono : Real.exp (xbs - 63.18) ≤ Real.exp 0.1667 :=
      Real.exp_le_exp.mpr (by linarith)
    linarith
  obtain ⟨hun1, hun2⟩ := interval_mul_pos he21 he22 (by norm_num) hAn1 hAn2 (by norm_num)
  obtain ⟨hus1, hus2⟩ := interval_mul_pos he21 he22 (by norm_num) hAs1 hAs2 (by norm_num)
  rw [← hsplitn] at hun1 hun2
  rw [← hsplits] at hus1 hus2
  have hun1' : (8.9817 : ℝ) ≤ Real.exp (xbn - 61.18) := by linarith
  have hun2' : Real.exp (xbn - 61.18) ≤ 8.9837 := by linarith
  have hus1' : (8.7257 : ℝ) ≤ Real.exp (xbs - 61.18) := by linarith
  have hus2' : Real.exp (xbs - 61.18) ≤ 8.7296 := by linarith
  -- v = log 0.9144 * u
  obtain ⟨hvn1, hvn2⟩ :=
    interval_mul_neg_pos hlS1 hlS2 (by norm_num) hun1' hun2' (by norm_num)
  obtain ⟨hvs1, hvs2⟩ :=
    interval_mul_neg_pos hlS1 hlS2 (by norm_num) hus1' hus2' (by norm_num)
  -- w = exp v, non-smoker
  have hwn1 : (0.4475 : ℝ) ≤ Real.exp (Real.log 0.9144 * Real.exp (xbn - 61.18)) := by
    have hb := @Real.exp_bound' (0.80394 : ℝ) (by norm_num) (by norm_num) 8 (by norm_num)
    simp only [Finset.sum_range_succ, Finset.sum_range_zero] at hb
    norm_num [Nat.factorial] at hb
    have hU : Real.exp 0.80394 ≤ 2.23447 := by linarith
    have h1 := one_div_le_exp_neg hU
    have hmono : Real.exp (-0.80394) ≤
        Real.exp (Real.log 0.9144 * Real.exp (xbn - 61.18)) :=
      Real.exp_le_exp.mpr (by linarith)
    have : (0.4475 : ℝ) ≤ 1 / 2.23447 := by norm_num
    linarith
  have hwn2 : Real.exp (Real.log 0.9144 * Real.exp (xbn - 61.18)) ≤ 0.4478 := by
    have hsum : (2.23375 : ℝ) ≤ ∑ m ∈ Finset.range 8, (0.80369 : ℝ) ^ m / m.factorial := by
      simp only [Finset.sum_range_succ, Finset.sum_range_zero]
      norm_num [Nat.factorial]
    have hL : (2.23375 : ℝ) ≤ Real.exp 0.80369 := by
      linarith [Real.sum_le_exp_of_nonneg (by norm_num : (0:ℝ) ≤ 0.80369) 8]
    have h2 := exp_neg_le_one_div (by norm_num : (0:ℝ) < 2.23375) hL
    have hmono : Real.exp (Real.log 0.9144 * Real.exp (xbn - 61.18)) ≤
        Real.exp (-0.80369) :=
      Real.exp_le_exp.mpr (by linarith)
    have : (1 : ℝ) / 2.23375 ≤ 0.4478 := by norm_num
    linarith
  -- w = exp v, smoker
  have hws1 : (0.45784 : ℝ) ≤ Real.exp (Real.log 0.9144 * Real.exp (xbs - 61.18)) := by
    have hb := @Real.exp_bound' (0.78120 : ℝ) (by norm_num) (by norm_num) 8 (by norm_num)
    simp only [Finset.sum_range_succ, Finset.sum_range_zero] at hb
    norm_num [Nat.factorial] at hb
    have hU : Real.exp 0.78120 ≤ 2.18412 := by linarith
    have h1 := one_div_le_exp_neg hU
    have hmono : Real.exp (-0.78120) ≤
        Real.exp (Real.log 0.9144 * Real.exp (xbs - 61.18)) :=
      Real.exp_le_exp.mpr (by linarith)
    have : (0.45784 : ℝ) ≤ 1 / 2.18412 := by norm_num
    linarith
  have hws2 : Real.exp (Real.log 0.9144 * Real.exp (xbs - 61.18)) ≤ 0.45806 := by
    have hsum : (2.18325 : ℝ) ≤ ∑ m ∈ Finset.range 8, (0.78083 : ℝ) ^ m / m.factorial := by
      simp only [Finset.sum_range_succ, Finset.sum_range_zero]
      norm_num [Nat.factorial]
    have hL : (2.18325 : ℝ) ≤ Real.exp 0.78083 := by
      linarith [Real.sum_le_exp_of_nonneg (by norm_num : (0:ℝ) ≤ 0.78083) 8]
    have h2 := exp_neg_le_one_div (by norm_num : (0:ℝ) < 2.18325) hL
    have hmono : Real.exp (Real.log 0.9144 * Real.exp (xbs - 61.18)) ≤
        Real.exp (-0.78083) :=
      Real.exp_le_exp.mpr (by linarith)
    have : (1 : ℝ) / 2.18325 ≤ 0.45806 := by norm_num
    linarith
  -- assemble
  have hrawn : pce_risk_raw 80 true false 213 50 120 false false false
      = 1 - Real.exp (Real.log 0.9144 * Real.exp (xbn - 61.18)) := by
    unfold pce_risk_raw pce_risk
    rw [pce_s10_wm, pce_mean_xb_wm, Real.rpow_def_of_pos (by norm_num)]
  have hraws : pce_risk_raw 80 true false 213 50 120 false true false
      = 1 - Real.exp (Real.log 0.9144 * Real.exp (xbs - 61.18)) := by
    unfold pce_risk_raw pce_risk
    rw [pce_s10_wm, pce_mean_xb_wm, Real.rpow_def_of_pos (by norm_num)]
  rw [hrawn, hraws]
  refine ⟨⟨by linarith, by linarith⟩, by linarith, by linarith⟩

/-- C1: at the specification's reference input (age 55, male, non-black,
TC 213, HDL 50, SBP 120, untreated non-smoking non-diabetic, model
"pce2013") the code computes a risk percentage between 11 and 12 — not
approximately 5.3 — and classifies it Intermediate, not Borderline: the
white-male SBP coefficients in the source (1.996 treated / 1.933
untreated) deviate from the published Pooled Cohort Equations values and
the claimed reference output fails. -/
theorem claim_C1 :
    ∃ resp : RiskResponse,
      get_ascvd_risk 55 true false 213 50 120 "pce2013" false false false
        = Except.ok resp ∧
      11 ≤ resp.risk_percent ∧ resp.risk_percent ≤ 12 ∧
      resp.risk_category = "Intermediate (7.5-19.9%)" ∧
      ¬ |resp.risk_percent - 5.3| ≤ 0.2 ∧
      resp.risk_category ≠ "Borderline (5-7.4%)" := by
  have hcast : ((55 : ℤ) : ℝ) = (55 : ℝ) := by norm_num
  have hok : get_ascvd_risk 55 true false 213 50 120 "pce2013" false false false
      = Except.ok
          { risk_percent :=
              pyRound2 (pce_risk_raw 55 true false 213 50 120 false false false * 100)
            risk_category :=
              classify (pyRound2 (pce_risk_raw 55 true false 213 50 120 false false false * 100))
            model_version := "pce2013"
            disclaimer := disclaimerText } := by
    unfold get_ascvd_risk
    rw [if_pos rfl, hcast, calculate_pce_risk_eq, if_pos (by norm_num)]
    rfl
  obtain ⟨hb1, hb2⟩ := C1_interval
  have hr := pyRound2_abs_le (pce_risk_raw 55 true false 213 50 120 false false false * 100)
  rw [abs_le] at hr
  have hp1 : (11 : ℝ) ≤
      pyRound2 (pce_risk_raw 55 true false 213 50 120 false false false * 100) := by
    linarith [hr.1, hr.2]
  have hp2 : pyRound2 (pce_risk_raw 55 true false 213 50 120 false false false * 100)
      ≤ 12 := by
    linarith [hr.1, hr.2]
  have hcat : classify (pyRound2 (pce_risk_raw 55 true false 213 50 120 false false false * 100))
      = "Intermediate (7.5-19.9%)" :=
    classify_of_intermediate (by linarith) (by linarith)
  refine ⟨_, hok, hp1, hp2, hcat, ?_, ?_⟩
  · intro habs
    rw [abs_le] at habs
    linarith [habs.2]
  · rw [hcat]
    decide

/-- C9: at the well-formed input age 80 (male, non-black, TC 213, HDL 50,
SBP 120, untreated, non-diabetic) — an age large enough that
`1.795 · ln(age) > 7.837` — changing only `is_smoker` from false to true
strictly decreases the computed risk percentage, because the smoker
contribution `7.837 − 1.795 · ln(age)` to the linear predictor is negative
there. -/
theorem claim_C9 :
    (7.837 : ℝ) < 1.795 * Real.log 80 ∧
    ∃ rs rn : ℝ,
      calculate_pce_risk 80 true false 213 50 120 false true false = Except.ok rs ∧
      calculate_pce_risk 80 true false 213 50 120 false false false = Except.ok rn ∧
      rs < rn := by
  obtain ⟨hla1, _⟩ := log_80_bounds
  refine ⟨by nlinarith, ?_⟩
  obtain ⟨⟨hn1, hn2⟩, hs1, hs2⟩ := C9_interval
  refine ⟨pyRound2 (pce_risk_raw 80 true false 213 50 120 false true false * 100),
          pyRound2 (pce_risk_raw 80 true false 213 50 120 false false false * 100),
          ?_, ?_, ?_⟩
  · rw [calculate_pce_risk_eq, if_pos (by norm_num)]
  · rw [calculate_pce_risk_eq, if_pos (by norm_num)]
  · have h1 := pyRound2_abs_le (pce_risk_raw 80 true false 213 50 120 false true false * 100)
    have h2 := pyRound2_abs_le (pce_risk_raw 80 true false 213 50 120 false false false * 100)
    rw [abs_le] at h1 h2
    linarith [h1.1, h1.2, h2.1, h2.2]

end PulseNode
